import Mathlib

/-!
Verification development for the pynetgear client (src/pynetgear/__init__.py).

The Python module is shallowly embedded: Python strings are Lean `String`
(a list of code points), Python `int` is `Int`, Python floats are modelled
as exact decimal values (a mantissa and a power-of-ten scale), raised
exceptions are modelled with `Except PyExc`, and the stateful client with
its HTTP transport is modelled as an explicit state machine driven by a
scripted list of transport events.
-/

namespace Pynetgear

/-! ## Python string primitives (modelled at the code-point level) -/

/-- Python whitespace characters recognised by `str.strip()` (ASCII subset;
the claims only exercise ASCII data). -/
def pyIsSpace (c : Char) : Bool :=
  c = Char.ofNat 32 ∨ c = Char.ofNat 9 ∨ c = Char.ofNat 10 ∨
  c = Char.ofNat 13 ∨ c = Char.ofNat 11 ∨ c = Char.ofNat 12

/-- Python `str.strip()`: drop whitespace from both ends. -/
def pyStrip (s : String) : String :=
  String.mk (((s.data.dropWhile pyIsSpace).reverse.dropWhile pyIsSpace).reverse)

def splitCharAux (sep : Char) : List Char → List Char → List String
  | [], acc => [String.mk acc.reverse]
  | c :: cs, acc =>
    if c = sep then String.mk acc.reverse :: splitCharAux sep cs []
    else splitCharAux sep cs (c :: acc)

/-- Python `str.split(sep)` for a one-character separator: keeps empty
pieces, and the result is never the empty list. -/
def splitChar (sep : Char) (s : String) : List String :=
  splitCharAux sep s.data []

/-- Python substring test `needle in hay`. -/
def containsSub (hay needle : List Char) : Bool :=
  if needle.isPrefixOf hay then true
  else
    match hay with
    | [] => false
    | _ :: t => containsSub t needle

def pyReplaceFuel (old new : List Char) : Nat → List Char → List Char
  | 0, s => s
  | _ + 1, [] => []
  | fuel + 1, c :: cs =>
    if !old.isEmpty && old.isPrefixOf (c :: cs) then
      new ++ pyReplaceFuel old new fuel ((c :: cs).drop old.length)
    else
      c :: pyReplaceFuel old new fuel cs

/-- Python `str.replace(old, new)`: replace every occurrence of a
non-empty `old`, scanning left to right.  The fuel equals the input
length, which always suffices because each step consumes at least one
character. -/
def pyReplace (s old new : String) : String :=
  String.mk (pyReplaceFuel old.data new.data s.data.length s.data)

def digitsToNat (ds : List Char) : Nat :=
  ds.foldl (fun a c => 10 * a + (c.toNat - 48)) 0

/-- Consume one optional leading sign, returning the sign as `1` or `-1`. -/
def parseSignInt : List Char → Int × List Char
  | [] => (1, [])
  | c :: cs =>
    if c = Char.ofNat 43 then (1, cs)
    else if c = Char.ofNat 45 then (-1, cs)
    else (1, c :: cs)

/-- Python `int(s)` on a string: strip whitespace, optional sign, a
non-empty run of digits and nothing else; otherwise a `ValueError`
(modelled as `none`). -/
def pyIntStr (s : String) : Option Int :=
  let cs := ((s.data.dropWhile pyIsSpace).reverse.dropWhile pyIsSpace).reverse
  let (sgn, cs1) := parseSignInt cs
  let ds := cs1.takeWhile Char.isDigit
  let rest := cs1.dropWhile Char.isDigit
  if ds.isEmpty || !rest.isEmpty then Option.none
  else some (sgn * (digitsToNat ds : Int))

/-! ## Exceptions -/

/-- The Python exception kinds relevant to this module. -/
inductive PyExc where
  | valueError
  | typeError
  | parseError
  | overflowError
  | attributeError
deriving DecidableEq, Repr

/-! ## ValueCoercion (`_convert`)

```
def _convert(value, to_type, default=None):
    try:
        return default if value is None else to_type(value)
    except ValueError:
        return default
```
Only `ValueError` is caught: any other exception raised by `to_type`
escapes `_convert`. -/

def pyconvert {α β : Type} (value : Option α) (toType : α → Except PyExc β)
    (dflt : Option β) : Except PyExc (Option β) :=
  match value with
  | Option.none => Except.ok dflt
  | some v =>
    match toType v with
    | Except.ok b => Except.ok (some b)
    | Except.error PyExc.valueError => Except.ok dflt
    | Except.error e => Except.error e

/-- A fragment of the Python value universe, enough to apply the builtin
`int` to values of the kinds the claims quantify over. -/
inductive PyVal where
  | vStr (s : String)
  | vInt (n : Int)
  | vList (xs : List PyVal)

/-- Python `int` applied to a string, as an exception-typed function. -/
def pyIntE (s : String) : Except PyExc Int :=
  match pyIntStr s with
  | some n => Except.ok n
  | Option.none => Except.error PyExc.valueError

/-- The Python builtin `int` on the modelled value universe: strings
convert or raise `ValueError`; ints pass through; a list (or any other
non-numeric, non-string object) raises `TypeError`. -/
def pyInt : PyVal → Except PyExc Int
  | PyVal.vStr s => pyIntE s
  | PyVal.vInt n => Except.ok n
  | PyVal.vList _ => Except.error PyExc.typeError

/-- `_convert(s, int)` as used throughout the device decode: the value is
a string, the target type is `int`, the default is `None`.  `int` on a
string only raises `ValueError`, which `_convert` catches. -/
def convertStrInt (s : String) : Option Int :=
  match pyconvert (some s) pyIntE Option.none with
  | Except.ok r => r
  | Except.error _ => Option.none

/-! ## Python floats as exact decimals, and the traffic metric parser -/

/-- A parsed Python float, modelled exactly as `m / 10 ^ k`.  The claims
never depend on binary floating-point rounding, so the decimal value read
from the text is kept exactly. -/
structure PyFloat where
  m : Int
  k : Nat
deriving DecidableEq, Repr

/-- The rational value of a modelled float (for readable statements). -/
def PyFloat.val (d : PyFloat) : ℚ := (d.m : ℚ) / (10 : ℚ) ^ d.k

/-- Apply a decimal exponent to a parsed mantissa. -/
def applyExp (d : PyFloat) (e : Int) : PyFloat :=
  if 0 ≤ e then ⟨d.m * (10 : Int) ^ e.toNat, d.k⟩ else ⟨d.m, d.k + e.natAbs⟩

/-- Parse an unsigned decimal `digits [. digits]` (at least one digit
somewhere), returning the value and the remaining characters. -/
def parseUDecimal (cs : List Char) : Option (PyFloat × List Char) :=
  let ip := cs.takeWhile Char.isDigit
  let rest := cs.dropWhile Char.isDigit
  match rest with
  | c :: rest2 =>
    if c = Char.ofNat 46 then
      let fp := rest2.takeWhile Char.isDigit
      let rest3 := rest2.dropWhile Char.isDigit
      if ip.isEmpty && fp.isEmpty then Option.none
      else some (⟨(digitsToNat ip * 10 ^ fp.length + digitsToNat fp : Nat), fp.length⟩, rest3)
    else if ip.isEmpty then Option.none
    else some (⟨(digitsToNat ip : Nat), 0⟩, rest)
  | [] =>
    if ip.isEmpty then Option.none
    else some (⟨(digitsToNat ip : Nat), 0⟩, [])

/-- Python `float(s)` on a string: strip whitespace, optional sign,
decimal mantissa, optional exponent part; `ValueError` is `none`.
(The special spellings `inf` and `nan` are not modelled; no claim
involves them.) -/
def pyFloatStr (s : String) : Option PyFloat :=
  let cs := ((s.data.dropWhile pyIsSpace).reverse.dropWhile pyIsSpace).reverse
  let (sgn, cs1) := parseSignInt cs
  match parseUDecimal cs1 with
  | Option.none => Option.none
  | some (d, rest) =>
    match rest with
    | [] => some ⟨sgn * d.m, d.k⟩
    | c :: rest2 =>
      if c = Char.ofNat 101 ∨ c = Char.ofNat 69 then
        let (esgn, rest3) := parseSignInt rest2
        let eds := rest3.takeWhile Char.isDigit
        let rest4 := rest3.dropWhile Char.isDigit
        if eds.isEmpty || !rest4.isEmpty then Option.none
        else some (applyExp ⟨sgn * d.m, d.k⟩ (esgn * (digitsToNat eds : Int)))
      else Option.none

def PyFloat.mulNat (d : PyFloat) (n : Nat) : PyFloat := ⟨d.m * (n : Int), d.k⟩

def PyFloat.add (a b : PyFloat) : PyFloat :=
  ⟨a.m * (10 : Int) ^ b.k + b.m * (10 : Int) ^ a.k, a.k + b.k⟩

/-- `d.val < n`, decided on integers. -/
def PyFloat.ltInt (d : PyFloat) (n : Int) : Bool := d.m < n * (10 : Int) ^ d.k

/-- `n ≤ d.val`, decided on integers. -/
def PyFloat.geInt (d : PyFloat) (n : Int) : Bool := n * (10 : Int) ^ d.k ≤ d.m

/-- A `datetime.timedelta`, kept as its exact total seconds. -/
structure PyTimedelta where
  seconds : PyFloat
deriving DecidableEq, Repr

/-- `timedelta(hours=h, minutes=m)`.  Python normalises to days and
raises `OverflowError` when the day count leaves
`[-999999999, 999999999]`; that bound check is kept, because
`OverflowError` is not a `ValueError` and escapes the metric parser. -/
def pyTimedelta (hours minutes : PyFloat) : Except PyExc PyTimedelta :=
  let total := (hours.mulNat 3600).add (minutes.mulNat 60)
  if total.ltInt (-999999999 * 86400) || total.geInt (1000000000 * 86400) then
    Except.error PyExc.overflowError
  else Except.ok ⟨total⟩

/-- The three result shapes of `get_traffic_meter.parse_text`: the tuple
built from the `/` branch, a duration, or a single float. -/
inductive TrafficStat where
  | tup (vals : List PyFloat)
  | dur (td : PyTimedelta)
  | flt (v : PyFloat)
deriving DecidableEq, Repr

/-- Whether a metric result is a pair (a 2-tuple). -/
def isPairStat : TrafficStat → Bool
  | TrafficStat.tup [_, _] => true
  | _ => false

/-- `parse_text` from `get_traffic_meter`:

```
def tofloats(lst): return (float(t) for t in lst)
try:
    if "/" in text:  # "6.19/0.88" total/avg
        return tuple(tofloats(text.split('/')))
    elif ":" in text:  # 11:14 hr:mn
        hour, mins = tofloats(text.split(':'))
        return timedelta(hours=hour, minutes=mins)
    else:
        return float(text)
except ValueError:
    return None
```

Only `ValueError` is caught (bad digits, or unpacking a `:`-split whose
length is not 2); an `OverflowError` from `timedelta` escapes. -/
def parseText (text : String) : Except PyExc (Option TrafficStat) :=
  if text.data.contains (Char.ofNat 47) then
    match (splitChar (Char.ofNat 47) text).mapM pyFloatStr with
    | some l => Except.ok (some (TrafficStat.tup l))
    | Option.none => Except.ok Option.none
  else if text.data.contains (Char.ofNat 58) then
    match splitChar (Char.ofNat 58) text with
    | [a, b] =>
      match pyFloatStr a, pyFloatStr b with
      | some h, some m =>
        match pyTimedelta h m with
        | Except.ok td => Except.ok (some (TrafficStat.dur td))
        | Except.error e => Except.error e
      | _, _ => Except.ok Option.none
    | _ => Except.ok Option.none
  else
    match pyFloatStr text with
    | some v => Except.ok (some (TrafficStat.flt v))
    | Option.none => Except.ok Option.none

/-! ## The device record and the v1 wire-format decode -/

/-- The `Device` namedtuple.  Fields that a wire format may omit are
optional; `ip`, `name`, `mac` are optional strings because the structured
(v2) decode can also yield `None` for them. -/
structure Device where
  signal : Option Int
  ip : Option String
  name : Option String
  mac : Option String
  type : Option String
  link_rate : Option Int
  allow_or_block : Option String
  device_type : Option Int
  device_model : Option String
  ssid : Option String
  conn_ap_mac : Option String
deriving DecidableEq, Repr

/-- The warnings `get_attached_devices` can log while decoding. -/
inductive Warning where
  | countMismatch (declared : Int) (actual : Nat)
  | unexpectedEntry (info : List String)
deriving DecidableEq, Repr

/-- The per-record body of the `get_attached_devices` loop, applied to
`info = entry.split(";")`.  Records with fewer than 4 fields yield no
device (`info[1:4]` needs indices 1..3); `info[4]`, `info[5]`, `info[6]`
are the head of `rest` at offsets 0..2 (present when `len(info) >= 7`),
and `info[7]` is `rest` at offset 3 (present when `len(info) >= 8`). -/
def parseEntry (info : List String) : Option Device :=
  match info with
  | _ :: f1 :: f2 :: f3 :: rest =>
    let opt :=
      match rest with
      | f4 :: f5 :: f6 :: _ => (some f4, convertStrInt f5, convertStrInt f6)
      | _ => (Option.none, Option.none, Option.none)
    let allow_or_block :=
      match rest with
      | _ :: _ :: _ :: f7 :: _ => some f7
      | _ => Option.none
    some { signal := opt.2.2, ip := some f1, name := some f2, mac := some f3,
           type := opt.1, link_rate := opt.2.1, allow_or_block := allow_or_block,
           device_type := Option.none, device_model := Option.none,
           ssid := Option.none, conn_ap_mac := Option.none }
  | _ => Option.none

/-- The `for entry in entries` loop: split each entry on `;`, skip empty
splits silently (dead in Python too, since `split` never returns an empty
list), warn and skip records with fewer than 4 fields, and collect the
decoded devices in order. -/
def decodeEntries : List String → List Warning × List Device
  | [] => ([], [])
  | e :: es =>
    let info := splitChar (Char.ofNat 59) e
    let (ws, ds) := decodeEntries es
    if info.length = 0 then (ws, ds)
    else
      match parseEntry info with
      | Option.none => (Warning.unexpectedEntry info :: ws, ds)
      | some d => (ws, d :: ds)

/-- The v1 decode applied to the already-stripped-and-unescaped value:
empty or `"0"` yields no devices; otherwise split on `@`; when more than
one element exists, pop the first as the declared count and warn (only)
when it parses and mismatches the number of remaining records. -/
def decodeDecoded (decoded : String) : List Warning × List Device :=
  if decoded = "" ∨ decoded = "0" then ([], [])
  else
    match splitChar (Char.ofNat 64) decoded with
    | [] => ([], [])
    | [single] => decodeEntries [single]
    | first :: rest =>
      let entry_count := convertStrInt first
      let ws0 :=
        match entry_count with
        | some n => if n ≠ (rest.length : Int) then [Warning.countMismatch n rest.length] else []
        | Option.none => []
      let (ws, ds) := decodeEntries rest
      (ws0 ++ ws, ds)

def UNKNOWN_DEVICE_DECODED : String := "<unknown>"
def UNKNOWN_DEVICE_ENCODED : String := "&lt;unknown&gt;"

/-- The full text-to-devices pipeline of `get_attached_devices`:
`node.text.strip()`, decode the double-encoded unknown marker, then the
count-and-records decode. -/
def decodeV1 (raw : String) : List Warning × List Device :=
  decodeDecoded (pyReplace (pyStrip raw) UNKNOWN_DEVICE_ENCODED UNKNOWN_DEVICE_DECODED)

/-! ## The response parser (`_find_node`)

An ElementTree element: a tag (spelled `\x7buri\x7dlocal` when the parser
attached a namespace), optional text, and child elements in document
order. -/

inductive XTree where
  | mk (tag : String) (text : Option String) (children : List XTree)

def XTree.tag : XTree → String
  | XTree.mk t _ _ => t

def XTree.text : XTree → Option String
  | XTree.mk _ x _ => x

def XTree.children : XTree → List XTree
  | XTree.mk _ _ c => c

def rbraceChar : Char := Char.ofNat 125

/-- The characters of a string after its first right brace, when the
string has one. -/
def afterFirst (sep : Char) : List Char → Option (List Char)
  | [] => Option.none
  | c :: cs => if c = sep then some cs else afterFirst sep cs

/-- The per-element tag rewrite of `_find_node`:
`if '\x7d' in el.tag: el.tag = el.tag.split('\x7d', 1)[1]`. -/
def stripTag (tag : String) : String :=
  match afterFirst rbraceChar tag.data with
  | some rest => String.mk rest
  | Option.none => tag

mutual

/-- Apply the tag rewrite to every element of a tree (the `iterparse`
loop visits every element exactly once). -/
def stripTags : XTree → XTree
  | XTree.mk t x c => XTree.mk (stripTag t) x (stripTagsList c)

def stripTagsList : List XTree → List XTree
  | [] => []
  | t :: ts => stripTags t :: stripTagsList ts

end

mutual

/-- First element with the given tag among the descendants of a node, in
document order (the node itself included once it is reached as a
descendant). -/
def findDescNode (tag : String) : XTree → Option XTree
  | XTree.mk t x c =>
    if t = tag then some (XTree.mk t x c) else findDescList tag c

def findDescList (tag : String) : List XTree → Option XTree
  | [] => Option.none
  | t :: ts =>
    match findDescNode tag t with
    | some r => some r
    | Option.none => findDescList tag ts

end

/-- `root.find(".//tag")`: the first matching strict descendant of the
root in document order.  (The claims only exercise single-segment
descendant paths.) -/
def findDesc (root : XTree) (tag : String) : Option XTree :=
  findDescList tag root.children

/-- The code-point ranges removed by `_illegal_xml_chars_RE` (the base
table plus the supplementary-plane non-characters added for wide
builds). -/
def illegalRanges : List (Nat × Nat) :=
  [(0x00, 0x08), (0x0B, 0x0C), (0x0E, 0x1F), (0x7F, 0x84), (0x86, 0x9F),
   (0xFDD0, 0xFDDF), (0xFFFE, 0xFFFF)] ++
  (List.range 16).map (fun i => ((i + 1) * 0x10000 + 0xFFFE, (i + 1) * 0x10000 + 0xFFFF))

def isIllegalChar (c : Char) : Bool :=
  illegalRanges.any (fun p => decide (p.1 ≤ c.toNat) && decide (c.toNat ≤ p.2))

/-- `_illegal_xml_chars_RE` substitution with the empty replacement. -/
def sanitize (s : String) : String :=
  String.mk (s.data.filter (fun c => !isIllegalChar c))

/-- `_find_node(response, ".//tag")`.  XML parsing itself is external
(`xml.etree.ElementTree.iterparse`); it is passed in as a function
returning the parsed tree, or `none` when the text is not well-formed, in
which case `iterparse` raises `ParseError` — which `_find_node` does not
catch, so the error escapes.  When the tree parses, every tag is
namespace-stripped, the first matching descendant is searched, and a
missing node is reported as `(false, none)` without raising. -/
def findNode (parseXML : String → Option XTree) (response : String) (tag : String) :
    Except PyExc (Bool × Option XTree) :=
  match parseXML (sanitize response) with
  | Option.none => Except.error PyExc.parseError
  | some root =>
    match findDesc (stripTags root) tag with
    | Option.none => Except.ok (false, Option.none)
    | some node => Except.ok (true, some node)

/-- The response-handling part of `get_attached_devices`, given the
success flag and raw text of the transport call: on call failure return
`None`; on a missing `NewAttachDevice` node return `None`; on a found
node decode its text (where a `None` text makes `.strip()` raise
`AttributeError`).  A `ParseError` raised by `_find_node` propagates. -/
def getAttachedDevicesFromResponse (parseXML : String → Option XTree) (success : Bool)
    (respText : String) : Except PyExc (Option (List Device)) :=
  if success = false then Except.ok Option.none
  else
    match findNode parseXML respText "NewAttachDevice" with
    | Except.error e => Except.error e
    | Except.ok (false, _) => Except.ok Option.none
    | Except.ok (true, Option.none) => Except.ok Option.none
    | Except.ok (true, some node) =>
      match node.text with
      | Option.none => Except.error PyExc.attributeError
      | some t => Except.ok (some (decodeV1 t).2)

/-! Predicates about right braces in tags, for the namespace-stripping
claims. -/

def hasRBrace (s : String) : Bool := s.data.contains rbraceChar

mutual

/-- No tag anywhere in the tree contains a right brace (an unprefixed
tree). -/
def treeNoBrace : XTree → Bool
  | XTree.mk t _ c => !hasRBrace t && listNoBrace c

def listNoBrace : List XTree → Bool
  | [] => true
  | t :: ts => treeNoBrace t && listNoBrace ts

end

mutual

/-- Every tag in the tree has brace-free text after its first right
brace (at most one right brace per tag), i.e. stripping leaves no
brace behind. -/
def treeStripSafe : XTree → Bool
  | XTree.mk t _ c => !hasRBrace (stripTag t) && listStripSafe c

def listStripSafe : List XTree → Bool
  | [] => true
  | t :: ts => treeStripSafe t && listStripSafe ts

end

/-- The ElementTree spelling of local name `localName` qualified by
namespace uri `uri`. -/
def nsTag (uri localName : String) : String :=
  String.mk (Char.ofNat 123 :: uri.data ++ rbraceChar :: localName.data)

/-! ## The session manager and call invoker (`Netgear.login*`, `_make_request`)

The HTTP transport is modelled by a scripted list of events: each POST
consumes the next event, which is either a response or a raised
`requests.exceptions.RequestException`.  The client state carries the
credentials, the `self.cookie` field, the remaining script, a log of the
POSTs that were sent (their headers and message body), and a count of
`login()` invocations. -/

/-- An HTTP response: status code, body text, and the `Set-Cookie`
response header when present. -/
structure Resp where
  statusCode : Nat
  text : String
  setCookie : Option String
deriving DecidableEq, Repr

/-- One scripted transport event. -/
inductive Ev where
  | resp (r : Resp)
  | raise
deriving DecidableEq, Repr

/-- The values `self.cookie` ranges over: `None`, `True` (v1 login), or a
cookie string (v2 login). -/
inductive Cookie where
  | none
  | flag
  | token (s : String)
deriving DecidableEq, Repr

/-- Python truthiness of the cookie field (an empty string is falsy). -/
def Cookie.truthy : Cookie → Bool
  | Cookie.none => false
  | Cookie.flag => true
  | Cookie.token s => !(s == "")

/-- `isinstance(self.cookie, str)`. -/
def Cookie.isStr : Cookie → Bool
  | Cookie.token _ => true
  | _ => false

/-- The request headers built by `_get_headers`. -/
structure Headers where
  soapAction : String
  cacheControl : String
  userAgent : String
  contentType : String
  cookie : Option String
deriving DecidableEq, Repr

def SERVICE_URN : String := "urn:NETGEAR-ROUTER:service:"
def SERVICE_DEVICE_INFO : String := "DeviceInfo:1"
def SERVICE_DEVICE_CONFIG : String := "DeviceConfig:1"
def SESSION_ID : String := "A7D88AE69687E58D9A00"

/-- `_get_soap_headers(service, method)`. -/
def getSoapHeaders (service method : String) : Headers :=
  { soapAction := SERVICE_URN ++ service ++ "#" ++ method
  , cacheControl := "no-cache"
  , userAgent := "pynetgear"
  , contentType := "multipart/form-data"
  , cookie := Option.none }

/-- `_get_headers(service, method, need_auth)`: add the `Cookie` request
header only when authentication is needed and the stored cookie is a
string (the v1 boolean marker is never transmitted). -/
def getHeaders (cookie : Cookie) (service method : String) (needAuth : Bool) : Headers :=
  let headers := getSoapHeaders service method
  match cookie with
  | Cookie.token s => if needAuth then { headers with cookie := some s } else headers
  | _ => headers

/-- `_is_valid_response`: HTTP 200 and the embedded 000 response code. -/
def isValidResponse (r : Resp) : Bool :=
  r.statusCode == 200 && containsSub r.text.data "<ResponseCode>000</ResponseCode>".data

/-- `_is_unauthorized_response`: HTTP 401 or the embedded 401 response
code. -/
def isUnauthorizedResponse (r : Resp) : Bool :=
  r.statusCode == 401 || containsSub r.text.data "<ResponseCode>401</ResponseCode>".data

/-- The `SOAP_REQUEST` template instantiated. -/
def soapRequest (sessionId body : String) : String :=
  "<?xml version=\"1.0\" encoding=\"utf-8\" standalone=\"no\"?>\n" ++
  "<SOAP-ENV:Envelope xmlns:SOAPSDK1=\"http://www.w3.org/2001/XMLSchema\"\n" ++
  "  xmlns:SOAPSDK2=\"http://www.w3.org/2001/XMLSchema-instance\"\n" ++
  "  xmlns:SOAPSDK3=\"http://schemas.xmlsoap.org/soap/encoding/\"\n" ++
  "  xmlns:SOAP-ENV=\"http://schemas.xmlsoap.org/soap/envelope/\">\n" ++
  "<SOAP-ENV:Header>\n<SessionID>" ++ sessionId ++ "</SessionID>\n</SOAP-ENV:Header>\n" ++
  body ++ "\n</SOAP-ENV:Envelope>\n"

/-- The `LOGIN_V1_BODY` template instantiated. -/
def loginV1Body (username password : String) : String :=
  "<SOAP-ENV:Body>\n<Authenticate>\n  <NewUsername>" ++ username ++
  "</NewUsername>\n  <NewPassword>" ++ password ++
  "</NewPassword>\n</Authenticate>\n</SOAP-ENV:Body>"

/-- The `CALL_BODY` template instantiated (service already carries the
URN). -/
def callBody (service method params : String) : String :=
  "<SOAP-ENV:Body>\n<M1:" ++ method ++ " xmlns:M1=\"" ++ service ++ "\">\n" ++
  params ++ "</M1:" ++ method ++ ">\n</SOAP-ENV:Body>"

/-- The `<Key>Value</Key>` lines generated from the parameter map
(`None` becomes the empty string). -/
def paramsString : Option (List (String × String)) → String
  | Option.none => ""
  | some m =>
    m.foldl (fun acc kv => acc ++ "<" ++ kv.1 ++ ">" ++ kv.2 ++ "</" ++ kv.1 ++ ">\n") ""

/-- The client state: credentials and cookie field, plus the transport
script and observation logs. -/
structure St where
  username : String
  password : String
  cookie : Cookie
  script : List Ev
  sent : List (Headers × String)
  loginCalls : Nat
deriving DecidableEq, Repr

/-- One `requests.post`: log the sent headers and message, then consume
the next scripted event.  `none` is a raised `RequestException` (script
exhaustion also maps to it). -/
def doPost (st : St) (headers : Headers) (message : String) : Option Resp × St :=
  let st1 := { st with sent := st.sent ++ [(headers, message)] }
  match st1.script with
  | [] => (Option.none, st1)
  | Ev.resp r :: rest => (some r, { st1 with script := rest })
  | Ev.raise :: rest => (Option.none, { st1 with script := rest })

mutual

/-- `Netgear._make_request(service, method, params, body, need_auth)`.

The `fuel` argument models the Python call stack: `_make_request` can
re-enter `login()` (both before the POST and after a detected 401), and
`login()` re-enters `_make_request`; every nested call gets one unit
less.  With the scripts used in the claims a fuel of 4 plus nesting
suffices, and fuel exhaustion (which in Python would be a blown recursion
limit) returns failure. -/
def makeRequest : Nat → St → String → String → Option (List (String × String)) → String →
    Bool → Bool × Option Resp × St
  | 0, st, _, _, _, _, _ => (false, Option.none, st)
  | Nat.succ fuel, st, service, method, params, body, needAuth =>
    -- if need_auth and not self.cookie: if not self.login(): return False, None
    let pre : Bool × St :=
      if needAuth && !st.cookie.truthy then
        let lr := login fuel st
        (lr.1.truthy, lr.2)
      else (true, st)
    if pre.1 = false then (false, Option.none, pre.2)
    else
      let st1 := pre.2
      let headers := getHeaders st1.cookie service method needAuth
      let body2 :=
        if body = "" then callBody (SERVICE_URN ++ service) method (paramsString params)
        else body
      let message := soapRequest SESSION_ID body2
      match doPost st1 headers message with
      | (Option.none, st2) => (false, Option.none, st2)
      | (some req, st2) =>
        if isUnauthorizedResponse req then
          -- discard the cookie (it probably expired), login and retry once
          let st3 := { st2 with cookie := Cookie.none }
          let lr := login fuel st3
          if lr.1.truthy then
            -- NOTE (faithful to the source): the retry reuses the headers
            -- object built before the first POST
            match doPost lr.2 headers message with
            | (Option.none, st5) => (false, Option.none, st5)
            | (some req2, st5) => (isValidResponse req2, some req2, st5)
          else (false, Option.none, lr.2)
        else (isValidResponse req, some req, st2)

/-- `Netgear.login()`: v2 first, fall back to v1 when v2 yields a falsy
result.  The invocation count is recorded for the retry-bound claims. -/
def login : Nat → St → Cookie × St
  | 0, st => (Cookie.none, st)
  | Nat.succ fuel, st =>
    let st0 := { st with loginCalls := st.loginCalls + 1 }
    let v2 := loginV2 fuel st0
    if v2.1.truthy then v2 else loginV1 fuel v2.2

/-- `Netgear.login_v2()`: an unauthenticated `SOAPLogin` call with the
credentials as parameters; on call failure return `None`; otherwise store
the `Set-Cookie` header value when one is present, and return
`self.cookie` (whatever it now holds). -/
def loginV2 : Nat → St → Cookie × St
  | 0, st => (Cookie.none, st)
  | Nat.succ fuel, st =>
    match makeRequest fuel st SERVICE_DEVICE_CONFIG "SOAPLogin"
        (some [("Username", st.username), ("Password", st.password)]) "" false with
    | (false, _, st1) => (Cookie.none, st1)
    | (true, resp?, st1) =>
      let st2 :=
        match resp? with
        | some r =>
          match r.setCookie with
          | some c => { st1 with cookie := Cookie.token c }
          | Option.none => st1
        | Option.none => st1
      (st2.cookie, st2)

/-- `Netgear.login_v1()`: an unauthenticated `Authenticate` call with the
fixed body template; on success set the boolean marker; return
`self.cookie`. -/
def loginV1 : Nat → St → Cookie × St
  | 0, st => (Cookie.none, st)
  | Nat.succ fuel, st =>
    let body := loginV1Body st.username st.password
    match makeRequest fuel st "ParentalControl:1" "Authenticate" Option.none body false with
    | (success, _, st1) =>
      let st2 := if success then { st1 with cookie := Cookie.flag } else st1
      (st2.cookie, st2)

end

/-! ## Helper lemmas -/

theorem splitCharAux_ne_nil (sep : Char) (cs acc : List Char) :
    splitCharAux sep cs acc ≠ [] := by
  induction cs generalizing acc with
  | nil => simp [splitCharAux]
  | cons c cs ih =>
    simp only [splitCharAux]
    split
    · simp
    · exact ih _

theorem splitChar_ne_nil (sep : Char) (s : String) : splitChar sep s ≠ [] :=
  splitCharAux_ne_nil sep s.data []

theorem splitChar_length_pos (sep : Char) (s : String) : 0 < (splitChar sep s).length :=
  List.length_pos.mpr (splitChar_ne_nil sep s)

theorem parseEntry_none_of_short (info : List String) (h : info.length < 4) :
    parseEntry info = Option.none := by
  match info with
  | [] => rfl
  | [_] => rfl
  | [_, _] => rfl
  | [_, _, _] => rfl
  | _ :: _ :: _ :: _ :: _ => simp at h; omega

/-! ## Claim theorems -/

/-- C4: `_convert` returns the default exactly when the value is `None`
or the conversion raises `ValueError`; a conversion failure of any other
kind (for example the `TypeError` raised by `int` on a list) is not
caught and escapes, so the claimed "never throws for any input" is
refuted by the recorded counterexample. -/
theorem c4_convert_amended :
    (∀ (α β : Type) (f : α → Except PyExc β) (d : Option β),
        pyconvert Option.none f d = Except.ok d) ∧
    (∀ (α β : Type) (f : α → Except PyExc β) (d : Option β) (v : α) (b : β),
        f v = Except.ok b → pyconvert (some v) f d = Except.ok (some b)) ∧
    (∀ (α β : Type) (f : α → Except PyExc β) (d : Option β) (v : α),
        f v = Except.error PyExc.valueError → pyconvert (some v) f d = Except.ok d) ∧
    (∀ (α β : Type) (f : α → Except PyExc β) (d : Option β) (v : α) (e : PyExc),
        e ≠ PyExc.valueError → f v = Except.error e →
        pyconvert (some v) f d = Except.error e) ∧
    (∀ s : String, pyconvert (some s) pyIntE Option.none = Except.ok (pyIntStr s)) := by
  refine ⟨fun α β f d => rfl, ?_, ?_, ?_, ?_⟩
  · intro α β f d v b h
    simp [pyconvert, h]
  · intro α β f d v h
    simp [pyconvert, h]
  · intro α β f d v e hne h
    cases e <;> simp_all [pyconvert]
  · intro s
    cases h : pyIntStr s <;> simp [pyconvert, pyIntE, h]

/-- C4 witness: the amended statement evaluated at concrete inputs,
including the `TypeError` escape. -/
theorem c4_convert_amended_witness :
    pyconvert (some "7") pyIntE Option.none = Except.ok (some 7) ∧
    pyconvert (some "x") pyIntE (some 5) = Except.ok (some 5) ∧
    pyconvert (some (PyVal.vList [])) pyInt (Option.none : Option Int) =
      Except.error PyExc.typeError ∧
    pyconvert (Option.none : Option String) pyIntE (some 3) = Except.ok (some 3) :=
  ⟨c4_convert_amended.2.1 String Int pyIntE Option.none "7" 7 (by rfl),
   c4_convert_amended.2.2.1 String Int pyIntE (some 5) "x" (by rfl),
   c4_convert_amended.2.2.2.1 PyVal Int pyInt Option.none (PyVal.vList []) PyExc.typeError
     (by decide) (by rfl),
   c4_convert_amended.1 String Int pyIntE (some 3)⟩

/-- C4 counterexample: `_convert([], int)` raises `TypeError` (only
`ValueError` is caught), so `_convert` does not return the default on
every failing conversion and does throw for some inputs. -/
theorem c4_convert_counterexample :
    pyconvert (some (PyVal.vList [])) pyInt (Option.none : Option Int) =
      Except.error PyExc.typeError := rfl

/-- C10: the first `;`-field of a v1 record with at least 4 fields is
discarded: the decoded record is invariant under changing it, and ip,
name, mac come from the second, third and fourth fields. -/
theorem c10_first_field_discarded :
    ∀ (f0 g0 f1 f2 f3 : String) (rest : List String),
      parseEntry (f0 :: f1 :: f2 :: f3 :: rest) = parseEntry (g0 :: f1 :: f2 :: f3 :: rest) ∧
      ∃ dev, parseEntry (f0 :: f1 :: f2 :: f3 :: rest) = some dev ∧
        dev.ip = some f1 ∧ dev.name = some f2 ∧ dev.mac = some f3 := by
  intro f0 g0 f1 f2 f3 rest
  exact ⟨rfl, ⟨_, rfl, rfl, rfl, rfl⟩⟩

/-- C6: the v1 decode returns no devices on an empty or `"0"` value;
records with fewer than 4 fields are skipped with a warning and yield no
device; records with at least 4 fields yield ip/name/mac (from fields
1..3); at least 7 fields additionally assign link type (field 4) and the
coerced link rate and signal (fields 5, 6); at least 8 fields additionally
assign the allow/block flag (field 7); a record of exactly 4 fields has
all optional fields null. -/
theorem c6_v1_field_gating :
    (∀ d : String, d = "" ∨ d = "0" → decodeDecoded d = ([], [])) ∧
    (∀ info : List String, info.length < 4 → parseEntry info = Option.none) ∧
    (∀ (e : String) (es : List String), (splitChar (Char.ofNat 59) e).length < 4 →
        decodeEntries (e :: es) =
          (Warning.unexpectedEntry (splitChar (Char.ofNat 59) e) :: (decodeEntries es).1,
           (decodeEntries es).2)) ∧
    (∀ f0 f1 f2 f3 : String,
        parseEntry [f0, f1, f2, f3] =
          some { signal := Option.none, ip := some f1, name := some f2, mac := some f3,
                 type := Option.none, link_rate := Option.none, allow_or_block := Option.none,
                 device_type := Option.none, device_model := Option.none,
                 ssid := Option.none, conn_ap_mac := Option.none }) ∧
    (∀ (f0 f1 f2 f3 f4 f5 f6 : String) (rest : List String), ∃ dev,
        parseEntry (f0 :: f1 :: f2 :: f3 :: f4 :: f5 :: f6 :: rest) = some dev ∧
        dev.ip = some f1 ∧ dev.name = some f2 ∧ dev.mac = some f3 ∧
        dev.type = some f4 ∧ dev.link_rate = convertStrInt f5 ∧
        dev.signal = convertStrInt f6) ∧
    (∀ (f0 f1 f2 f3 f4 f5 f6 f7 : String) (rest : List String), ∃ dev,
        parseEntry (f0 :: f1 :: f2 :: f3 :: f4 :: f5 :: f6 :: f7 :: rest) = some dev ∧
        dev.allow_or_block = some f7) := by
  refine ⟨?_, parseEntry_none_of_short, ?_, ?_, ?_, ?_⟩
  · intro d hd
    rcases hd with h | h <;> subst h <;> rfl
  · intro e es h
    rcases hp : decodeEntries es with ⟨ws, ds⟩
    have hpos := splitChar_length_pos (Char.ofNat 59) e
    simp only [decodeEntries, hp]
    rw [if_neg (by omega), parseEntry_none_of_short _ h]
  · intro f0 f1 f2 f3
    rfl
  · intro f0 f1 f2 f3 f4 f5 f6 rest
    exact ⟨_, rfl, rfl, rfl, rfl, rfl, rfl, rfl⟩
  · intro f0 f1 f2 f3 f4 f5 f6 f7 rest
    exact ⟨_, rfl, rfl⟩

/-- C6 witness: the gating behaviour at concrete records, via the
theorem. -/
theorem c6_v1_field_gating_witness :
    decodeDecoded "0" = ([], []) ∧
    parseEntry ["AAA"] = Option.none ∧
    decodeEntries ["a;b", "BBB;1.2.3.5;host2;mac2"] =
      (Warning.unexpectedEntry (splitChar (Char.ofNat 59) "a;b") ::
         (decodeEntries ["BBB;1.2.3.5;host2;mac2"]).1,
       (decodeEntries ["BBB;1.2.3.5;host2;mac2"]).2) ∧
    parseEntry ["AAA", "1.2.3.4", "host1", "aa:bb:cc:dd:ee:ff"] =
      some { signal := Option.none, ip := some "1.2.3.4", name := some "host1",
             mac := some "aa:bb:cc:dd:ee:ff", type := Option.none, link_rate := Option.none,
             allow_or_block := Option.none, device_type := Option.none,
             device_model := Option.none, ssid := Option.none, conn_ap_mac := Option.none } :=
  ⟨c6_v1_field_gating.1 "0" (Or.inr rfl),
   c6_v1_field_gating.2.1 ["AAA"] (by decide),
   c6_v1_field_gating.2.2.1 "a;b" ["BBB;1.2.3.5;host2;mac2"] (by decide),
   c6_v1_field_gating.2.2.2.1 "AAA" "1.2.3.4" "host1" "aa:bb:cc:dd:ee:ff"⟩

/-- C7: when the `@`-split of the decoded v1 value has more than one
element, the first element is consumed as the declared device count; when
it parses as an integer and differs from the number of remaining records,
a count-mismatch warning is reported but every remaining record is still
decoded; on agreement there is no warning, with the same device list. -/
theorem c7_declared_count :
    ∀ (d first r1 : String) (rs : List String) (n : Int),
      splitChar (Char.ofNat 64) d = first :: r1 :: rs →
      convertStrInt first = some n →
      (n ≠ ((r1 :: rs).length : Int) →
        decodeDecoded d =
          (Warning.countMismatch n (r1 :: rs).length :: (decodeEntries (r1 :: rs)).1,
           (decodeEntries (r1 :: rs)).2)) ∧
      (n = ((r1 :: rs).length : Int) →
        decodeDecoded d = decodeEntries (r1 :: rs)) := by
  intro d first r1 rs n hsplit hconv
  have hne : ¬(d = "" ∨ d = "0") := by
    rintro (h | h) <;> subst h <;> simp [splitChar, splitCharAux] at hsplit
  rcases hp : decodeEntries (r1 :: rs) with ⟨ws, ds⟩
  constructor
  · intro hn
    simp only [decodeDecoded, hsplit, hconv, hp, if_neg hne]
    rw [if_pos hn]
    simp
  · intro hn
    simp only [decodeDecoded, hsplit, hconv, hp, if_neg hne]
    rw [if_neg (by omega)]
    simp

/-- C7 witness: the example wire value from the spec with a wrong declared count
of 3 logs a mismatch and still yields both records; with the correct
count of 2 there is no warning. -/
theorem c7_declared_count_witness :
    decodeDecoded "3@AAA;1.2.3.4;host1;aa:bb:cc:dd:ee:ff@BBB;1.2.3.5;host2;11:22:33:44:55:66" =
      (Warning.countMismatch 3 2 ::
         (decodeEntries ["AAA;1.2.3.4;host1;aa:bb:cc:dd:ee:ff",
                         "BBB;1.2.3.5;host2;11:22:33:44:55:66"]).1,
       (decodeEntries ["AAA;1.2.3.4;host1;aa:bb:cc:dd:ee:ff",
                       "BBB;1.2.3.5;host2;11:22:33:44:55:66"]).2) ∧
    decodeDecoded "2@AAA;1.2.3.4;host1;aa:bb:cc:dd:ee:ff@BBB;1.2.3.5;host2;11:22:33:44:55:66" =
      decodeEntries ["AAA;1.2.3.4;host1;aa:bb:cc:dd:ee:ff",
                     "BBB;1.2.3.5;host2;11:22:33:44:55:66"] :=
  ⟨(c7_declared_count
      "3@AAA;1.2.3.4;host1;aa:bb:cc:dd:ee:ff@BBB;1.2.3.5;host2;11:22:33:44:55:66"
      "3" "AAA;1.2.3.4;host1;aa:bb:cc:dd:ee:ff" ["BBB;1.2.3.5;host2;11:22:33:44:55:66"] 3
      (by rfl) (by rfl)).1 (by decide),
   (c7_declared_count
      "2@AAA;1.2.3.4;host1;aa:bb:cc:dd:ee:ff@BBB;1.2.3.5;host2;11:22:33:44:55:66"
      "2" "AAA;1.2.3.4;host1;aa:bb:cc:dd:ee:ff" ["BBB;1.2.3.5;host2;11:22:33:44:55:66"] 2
      (by rfl) (by rfl)).2 (by decide)⟩

theorem afterFirst_eq_none (sep : Char) (cs : List Char) (h : cs.contains sep = false) :
    afterFirst sep cs = Option.none := by
  induction cs with
  | nil => rfl
  | cons c cs ih =>
    simp only [List.contains_cons, Bool.or_eq_false_iff] at h
    have hc : ¬(c = sep) := by
      intro hcc
      subst hcc
      simp at h
    simp only [afterFirst, if_neg hc]
    exact ih h.2

theorem stripTag_noop (tag : String) (h : hasRBrace tag = false) : stripTag tag = tag := by
  unfold stripTag
  rw [afterFirst_eq_none rbraceChar tag.data h]

theorem afterFirst_append (sep : Char) (pre suf : List Char) (h : pre.contains sep = false) :
    afterFirst sep (pre ++ sep :: suf) = some suf := by
  induction pre with
  | nil => simp [afterFirst]
  | cons c cs ih =>
    simp only [List.contains_cons, Bool.or_eq_false_iff] at h
    have hc : ¬(c = sep) := by
      intro hcc
      subst hcc
      simp at h
    simp only [List.cons_append, afterFirst, if_neg hc]
    exact ih h.2

theorem stripTag_nsTag (uri localName : String) (h : hasRBrace uri = false) :
    stripTag (nsTag uri localName) = localName := by
  unfold stripTag nsTag
  have hbr : ¬(Char.ofNat 123 = rbraceChar) := by decide
  show (match afterFirst rbraceChar (Char.ofNat 123 :: uri.data ++ rbraceChar :: localName.data)
      with
    | some rest => String.mk rest
    | Option.none => nsTag uri localName) = localName
  rw [List.cons_append, afterFirst, if_neg hbr, afterFirst_append rbraceChar uri.data _ h]

mutual

theorem stripTags_noop : ∀ t : XTree, treeNoBrace t = true → stripTags t = t
  | XTree.mk tg x c, h => by
    have h' := h
    simp only [treeNoBrace, Bool.and_eq_true, Bool.not_eq_true'] at h'
    have ih := stripTagsList_noop c h'.2
    simp [stripTags, stripTag_noop tg h'.1, ih]

theorem stripTagsList_noop : ∀ ts : List XTree, listNoBrace ts = true → stripTagsList ts = ts
  | [], _ => rfl
  | t :: ts, h => by
    have h' := h
    simp only [listNoBrace, Bool.and_eq_true] at h'
    have ih1 := stripTags_noop t h'.1
    have ih2 := stripTagsList_noop ts h'.2
    simp [stripTagsList, ih1, ih2]

end

mutual

theorem stripTags_noBrace_of_safe : ∀ t : XTree, treeStripSafe t = true →
    treeNoBrace (stripTags t) = true
  | XTree.mk tg x c, h => by
    have h' := h
    simp only [treeStripSafe, Bool.and_eq_true, Bool.not_eq_true'] at h'
    have ih := stripTagsList_noBrace_of_safe c h'.2
    simp [stripTags, treeNoBrace, h'.1, ih]

theorem stripTagsList_noBrace_of_safe : ∀ ts : List XTree, listStripSafe ts = true →
    listNoBrace (stripTagsList ts) = true
  | [], _ => rfl
  | t :: ts, h => by
    have h' := h
    simp only [listStripSafe, Bool.and_eq_true] at h'
    have ih1 := stripTags_noBrace_of_safe t h'.1
    have ih2 := stripTagsList_noBrace_of_safe ts h'.2
    simp [stripTagsList, listNoBrace, ih1, ih2]

end

/-- C9: the tag-rewriting step is a no-op on trees whose tags carry no
right brace; it is idempotent on trees whose tags contain at most one
right brace (the residue of every tag after the first right brace is
brace-free — which covers every tag ElementTree produces from a
namespace URI that itself contains no right brace); and a sibling pair in
which one tag is namespace-qualified and the other is not strips to
exactly the unprefixed tree.  (Without the residue condition idempotence
fails, see the counterexample: the source rewrites to everything after
the FIRST right brace, which can itself retain a brace.) -/
theorem c9_strip_amended :
    (∀ t : XTree, treeNoBrace t = true → stripTags t = t) ∧
    (∀ t : XTree, treeStripSafe t = true → stripTags (stripTags t) = stripTags t) ∧
    (∀ (rt ta tb uri : String) (x1 x2 x3 : Option String),
        hasRBrace rt = false → hasRBrace ta = false → hasRBrace tb = false →
        hasRBrace uri = false →
        stripTags (XTree.mk rt x1 [XTree.mk (nsTag uri ta) x2 [], XTree.mk tb x3 []]) =
          XTree.mk rt x1 [XTree.mk ta x2 [], XTree.mk tb x3 []]) := by
  refine ⟨stripTags_noop, ?_, ?_⟩
  · intro t h
    exact stripTags_noop (stripTags t) (stripTags_noBrace_of_safe t h)
  · intro rt ta tb uri x1 x2 x3 hrt hta htb huri
    simp [stripTags, stripTagsList, stripTag_noop rt hrt, stripTag_noop tb htb,
      stripTag_nsTag uri ta huri]

/-- C9 witness: the amended statement at a concrete mixed-prefix tree. -/
theorem c9_strip_amended_witness :
    stripTags (XTree.mk "root" Option.none [XTree.mk "a" Option.none []]) =
      XTree.mk "root" Option.none [XTree.mk "a" Option.none []] ∧
    stripTags (stripTags (XTree.mk "\x7burn:x\x7droot" Option.none [])) =
      stripTags (XTree.mk "\x7burn:x\x7droot" Option.none []) ∧
    stripTags (XTree.mk "root" Option.none
        [XTree.mk (nsTag "urn:x" "a") Option.none [], XTree.mk "b" Option.none []]) =
      XTree.mk "root" Option.none
        [XTree.mk "a" Option.none [], XTree.mk "b" Option.none []] :=
  ⟨c9_strip_amended.1 (XTree.mk "root" Option.none [XTree.mk "a" Option.none []]) (by rfl),
   c9_strip_amended.2.1 (XTree.mk "\x7burn:x\x7droot" Option.none []) (by rfl),
   c9_strip_amended.2.2 "root" "a" "b" "urn:x" Option.none Option.none Option.none
     (by rfl) (by rfl) (by rfl) (by rfl)⟩

/-- C9 counterexample: on the tag `\x7ba\x7db\x7dc` (local name `c` in
the legal namespace URI `a\x7db`) the rewriting step yields `b\x7dc`
once and `c` twice, so stripping is not idempotent as claimed. -/
theorem c9_strip_counterexample :
    stripTags (stripTags (XTree.mk "\x7ba\x7db\x7dc" Option.none [])) ≠
      stripTags (XTree.mk "\x7ba\x7db\x7dc" Option.none []) := by
  intro h
  have h1 : stripTags (stripTags (XTree.mk "\x7ba\x7db\x7dc" Option.none [])) =
      XTree.mk "c" Option.none [] := rfl
  have h2 : stripTags (XTree.mk "\x7ba\x7db\x7dc" Option.none []) =
      XTree.mk "b\x7dc" Option.none [] := rfl
  rw [h1, h2] at h
  injection h with ht _ _
  exact absurd ht (by decide)

/-- C5: the metric parser follows the claimed branch structure — on a
`/` it returns the tuple of floats of ALL the `/`-separated parts (a
pair only when there are exactly two parts); on a `:` that splits into
exactly two parseable floats it returns the duration, except that a
`timedelta` overflow raises `OverflowError`, which is not a `ValueError`
and escapes; otherwise a single float; and every `ValueError` (bad
digits, wrong `:`-arity) yields null. -/
theorem c5_metric_amended :
    (∀ (t : String) (l : List PyFloat), t.data.contains (Char.ofNat 47) = true →
        (splitChar (Char.ofNat 47) t).mapM pyFloatStr = some l →
        parseText t = Except.ok (some (TrafficStat.tup l))) ∧
    (∀ t : String, t.data.contains (Char.ofNat 47) = true →
        (splitChar (Char.ofNat 47) t).mapM pyFloatStr = Option.none →
        parseText t = Except.ok Option.none) ∧
    (∀ (t a b : String) (h m : PyFloat), t.data.contains (Char.ofNat 47) = false →
        t.data.contains (Char.ofNat 58) = true →
        splitChar (Char.ofNat 58) t = [a, b] →
        pyFloatStr a = some h → pyFloatStr b = some m →
        parseText t =
          (match pyTimedelta h m with
           | Except.ok td => Except.ok (some (TrafficStat.dur td))
           | Except.error e => Except.error e)) ∧
    (∀ (t a b : String), t.data.contains (Char.ofNat 47) = false →
        t.data.contains (Char.ofNat 58) = true →
        splitChar (Char.ofNat 58) t = [a, b] →
        (pyFloatStr a = Option.none ∨ pyFloatStr b = Option.none) →
        parseText t = Except.ok Option.none) ∧
    (∀ t : String, t.data.contains (Char.ofNat 47) = false →
        t.data.contains (Char.ofNat 58) = true →
        (splitChar (Char.ofNat 58) t).length ≠ 2 →
        parseText t = Except.ok Option.none) ∧
    (∀ t : String, t.data.contains (Char.ofNat 47) = false →
        t.data.contains (Char.ofNat 58) = false →
        parseText t =
          (match pyFloatStr t with
           | some v => Except.ok (some (TrafficStat.flt v))
           | Option.none => Except.ok Option.none)) := by
  refine ⟨?_, ?_, ?_, ?_, ?_, ?_⟩
  · intro t l h1 h2
    unfold parseText
    rw [h1, h2]
    rfl
  · intro t h1 h2
    unfold parseText
    rw [h1, h2]
    rfl
  · intro t a b fh fm h1 h2 hsplit ha hb
    unfold parseText
    rw [h1, h2, hsplit]
    simp [ha, hb]
  · intro t a b h1 h2 hsplit hfail
    unfold parseText
    rw [h1, h2, hsplit]
    rcases hfail with hf | hf
    · cases hb : pyFloatStr b <;> simp [hf, hb]
    · cases ha : pyFloatStr a <;> simp [hf, ha]
  · intro t h1 h2 hlen
    unfold parseText
    rw [h1, h2]
    match hsplit : splitChar (Char.ofNat 58) t with
    | [] => exact absurd hsplit (splitChar_ne_nil _ t)
    | [a] => rfl
    | [a, b] => rw [hsplit] at hlen; simp at hlen
    | a :: b :: c :: rest => rfl
  · intro t h1 h2
    unfold parseText
    rw [h1, h2]
    rfl

/-- C5 witness: the example metrics from the spec, via the amended theorem:
`6.19/0.88` is the pair (6.19, 0.88); `11:14` is the duration of 11
hours 14 minutes (40440 seconds); `42.0` is the float 42.0; empty and
non-numeric text give null. -/
theorem c5_metric_amended_witness :
    parseText "6.19/0.88" = Except.ok (some (TrafficStat.tup [⟨619, 2⟩, ⟨88, 2⟩])) ∧
    parseText "11:14" = Except.ok (some (TrafficStat.dur ⟨⟨40440, 0⟩⟩)) ∧
    parseText "42.0" = Except.ok (some (TrafficStat.flt ⟨420, 1⟩)) ∧
    parseText "" = Except.ok Option.none ∧
    parseText "hello" = Except.ok Option.none :=
  ⟨c5_metric_amended.1 "6.19/0.88" [⟨619, 2⟩, ⟨88, 2⟩] (by rfl) (by rfl),
   c5_metric_amended.2.2.1 "11:14" "11" "14" ⟨11, 0⟩ ⟨14, 0⟩ (by rfl) (by rfl) (by rfl)
     (by rfl) (by rfl),
   c5_metric_amended.2.2.2.2.2 "42.0" (by rfl) (by rfl),
   c5_metric_amended.2.2.2.2.2 "" (by rfl) (by rfl),
   c5_metric_amended.2.2.2.2.2 "hello" (by rfl) (by rfl)⟩

/-- C5 counterexample: `1/2/3` contains `/` but parses to a 3-tuple, not
the claimed pair; and a parseable `hours:minutes` value whose duration
overflows `timedelta` raises `OverflowError` instead of returning null,
so the branch behaviour and the never-raises part of the claim both
fail as stated. -/
theorem c5_metric_counterexample :
    parseText "1/2/3" = Except.ok (some (TrafficStat.tup [⟨1, 0⟩, ⟨2, 0⟩, ⟨3, 0⟩])) ∧
    isPairStat (TrafficStat.tup [⟨1, 0⟩, ⟨2, 0⟩, ⟨3, 0⟩]) = false ∧
    parseText "100000000000000:0" = Except.error PyExc.overflowError :=
  ⟨rfl, rfl, rfl⟩

/-- C1 (amended): when the sanitized text parses into a tree,
`_find_node` either returns the first matching node or reports
node-not-found without raising, and the enclosing public call turns
node-not-found (or a failed transport call) into `None`; but when the
sanitized text does NOT parse, `ET.iterparse` raises `ParseError`, which
`_find_node` does not catch, so the exception propagates out of the
public call (see the counterexample). -/
theorem c1_findnode_amended :
    ∀ (parseXML : String → Option XTree) (resp tag : String) (t : XTree),
      parseXML (sanitize resp) = some t →
      (∀ e : PyExc, findNode parseXML resp tag ≠ Except.error e) ∧
      (findDesc (stripTags t) tag = Option.none →
        findNode parseXML resp tag = Except.ok (false, Option.none)) ∧
      (∀ n : XTree, findDesc (stripTags t) tag = some n →
        findNode parseXML resp tag = Except.ok (true, some n)) ∧
      (findDesc (stripTags t) "NewAttachDevice" = Option.none →
        getAttachedDevicesFromResponse parseXML true resp = Except.ok Option.none) ∧
      (getAttachedDevicesFromResponse parseXML false resp = Except.ok Option.none) := by
  intro parseXML resp tag t h
  have key : ∀ tg, findDesc (stripTags t) tg = Option.none →
      findNode parseXML resp tg = Except.ok (false, Option.none) := by
    intro tg hfd
    unfold findNode
    rw [h]
    simp [hfd]
  have key2 : ∀ tg n, findDesc (stripTags t) tg = some n →
      findNode parseXML resp tg = Except.ok (true, some n) := by
    intro tg n hfd
    unfold findNode
    rw [h]
    simp [hfd]
  refine ⟨?_, key tag, key2 tag, ?_, rfl⟩
  · intro e
    cases hfd : findDesc (stripTags t) tag with
    | none => rw [key tag hfd]; simp
    | some n => rw [key2 tag n hfd]; simp
  · intro hfd
    unfold getAttachedDevicesFromResponse
    rw [key "NewAttachDevice" hfd]
    rfl

/-- C1 witness: a parse that yields a tree without the requested node
reports failure without raising and the public call returns `None`. -/
theorem c1_findnode_amended_witness :
    findNode (fun _ => some (XTree.mk "Envelope" Option.none [])) "<Envelope></Envelope>"
      "NewAttachDevice" = Except.ok (false, Option.none) ∧
    getAttachedDevicesFromResponse (fun _ => some (XTree.mk "Envelope" Option.none []))
      true "<Envelope></Envelope>" = Except.ok Option.none ∧
    getAttachedDevicesFromResponse (fun _ => some (XTree.mk "Envelope" Option.none []))
      false "<Envelope></Envelope>" = Except.ok Option.none :=
  ⟨(c1_findnode_amended (fun _ => some (XTree.mk "Envelope" Option.none []))
      "<Envelope></Envelope>" "NewAttachDevice" (XTree.mk "Envelope" Option.none [])
      (by rfl)).2.1 (by rfl),
   (c1_findnode_amended (fun _ => some (XTree.mk "Envelope" Option.none []))
      "<Envelope></Envelope>" "NewAttachDevice" (XTree.mk "Envelope" Option.none [])
      (by rfl)).2.2.2.1 (by rfl),
   (c1_findnode_amended (fun _ => some (XTree.mk "Envelope" Option.none []))
      "<Envelope></Envelope>" "NewAttachDevice" (XTree.mk "Envelope" Option.none [])
      (by rfl)).2.2.2.2⟩

/-- C1 counterexample: on text whose sanitized form still does not parse
(modelled by the parser returning no tree, exactly when `ET.iterparse`
raises), `_find_node` raises `ParseError` and `get_attached_devices`
propagates it across the public boundary instead of returning a
null/empty result. -/
theorem c1_findnode_counterexample :
    findNode (fun _ => Option.none) "<NewAttachDevice>" "NewAttachDevice" =
      Except.error PyExc.parseError ∧
    getAttachedDevicesFromResponse (fun _ => Option.none) true "<NewAttachDevice>" =
      Except.error PyExc.parseError :=
  ⟨rfl, rfl⟩

/-- Symbolic execution of one unauthenticated `_make_request` whose
scripted response is not a 401: it issues exactly one POST and
classifies the response, leaving the cookie untouched. -/
theorem makeRequest_noauth_step (f : Nat) (st : St) (service method : String)
    (params : Option (List (String × String))) (body : String) (r : Resp) (rest : List Ev)
    (hscript : st.script = Ev.resp r :: rest)
    (hu : isUnauthorizedResponse r = false) :
    makeRequest (Nat.succ f) st service method params body false =
      (isValidResponse r, some r,
       { st with script := rest,
                 sent := st.sent ++
                   [(getHeaders st.cookie service method false,
                     soapRequest SESSION_ID
                       (if body = "" then
                          callBody (SERVICE_URN ++ service) method (paramsString params)
                        else body))] }) := by
  simp only [makeRequest, Bool.false_and]
  simp [doPost, hscript, hu]

/-- C8 (amended): starting from an unauthenticated session
(`self.cookie` is `None`), `login_v2` yields a usable result exactly when
the call succeeds AND a (non-empty) session-token header is present, in
which case the token is stored and `login` stops there; when either
condition fails, `login_v2` returns the prior cookie — `None` from this
start state — and `login` falls through to the v1 protocol.  (From a
prior state whose cookie is already set, a successful call WITHOUT a
token header returns that stale cookie, so `login` does not fall through:
see the counterexample.) -/
theorem c8_loginv2_amended :
    ∀ (f : Nat) (u p : String) (sent0 : List (Headers × String)) (lc : Nat)
      (r r2 : Resp) (rest : List Ev) (tok : String),
      isUnauthorizedResponse r = false →
      isUnauthorizedResponse r2 = false →
      ((isValidResponse r = true → r.setCookie = some tok → (tok == "") = false →
        (loginV2 (Nat.succ (Nat.succ f))
            ⟨u, p, Cookie.none, Ev.resp r :: Ev.resp r2 :: rest, sent0, lc⟩).1 =
          Cookie.token tok ∧
        (loginV2 (Nat.succ (Nat.succ f))
            ⟨u, p, Cookie.none, Ev.resp r :: Ev.resp r2 :: rest, sent0, lc⟩).2.cookie =
          Cookie.token tok ∧
        (login (Nat.succ (Nat.succ (Nat.succ f)))
            ⟨u, p, Cookie.none, Ev.resp r :: Ev.resp r2 :: rest, sent0, lc⟩).1 =
          Cookie.token tok ∧
        (login (Nat.succ (Nat.succ (Nat.succ f)))
            ⟨u, p, Cookie.none, Ev.resp r :: Ev.resp r2 :: rest, sent0, lc⟩).2.sent.length =
          sent0.length + 1) ∧
       ((isValidResponse r = false ∨ r.setCookie = Option.none) →
        (loginV2 (Nat.succ (Nat.succ f))
            ⟨u, p, Cookie.none, Ev.resp r :: Ev.resp r2 :: rest, sent0, lc⟩).1 =
          Cookie.none ∧
        (login (Nat.succ (Nat.succ (Nat.succ f)))
            ⟨u, p, Cookie.none, Ev.resp r :: Ev.resp r2 :: rest, sent0, lc⟩).1 =
          (if isValidResponse r2 = true then Cookie.flag else Cookie.none) ∧
        (login (Nat.succ (Nat.succ (Nat.succ f)))
            ⟨u, p, Cookie.none, Ev.resp r :: Ev.resp r2 :: rest, sent0, lc⟩).2.sent.length =
          sent0.length + 2)) := by
  intro f u p sent0 lc r r2 rest tok hr hr2
  constructor
  · intro hv hsc htok
    have hv2 : ∀ lc' : Nat,
        loginV2 (Nat.succ (Nat.succ f))
            ⟨u, p, Cookie.none, Ev.resp r :: Ev.resp r2 :: rest, sent0, lc'⟩ =
          (Cookie.token tok,
           ⟨u, p, Cookie.token tok, Ev.resp r2 :: rest,
            sent0 ++
              [(getHeaders Cookie.none SERVICE_DEVICE_CONFIG "SOAPLogin" false,
                soapRequest SESSION_ID
                  (callBody (SERVICE_URN ++ SERVICE_DEVICE_CONFIG) "SOAPLogin"
                    (paramsString (some [("Username", u), ("Password", p)]))))],
            lc'⟩) := by
      intro lc'
      simp only [loginV2]
      rw [makeRequest_noauth_step f _ _ _ _ _ r (Ev.resp r2 :: rest) rfl hr]
      rw [hv]
      simp [hsc]
    have hlogin :
        login (Nat.succ (Nat.succ (Nat.succ f)))
            ⟨u, p, Cookie.none, Ev.resp r :: Ev.resp r2 :: rest, sent0, lc⟩ =
          (Cookie.token tok,
           ⟨u, p, Cookie.token tok, Ev.resp r2 :: rest,
            sent0 ++
              [(getHeaders Cookie.none SERVICE_DEVICE_CONFIG "SOAPLogin" false,
                soapRequest SESSION_ID
                  (callBody (SERVICE_URN ++ SERVICE_DEVICE_CONFIG) "SOAPLogin"
                    (paramsString (some [("Username", u), ("Password", p)]))))],
            lc + 1⟩) := by
      simp only [login]
      rw [show ({ (⟨u, p, Cookie.none, Ev.resp r :: Ev.resp r2 :: rest, sent0, lc⟩ : St) with
            loginCalls := lc + 1 } : St) =
          ⟨u, p, Cookie.none, Ev.resp r :: Ev.resp r2 :: rest, sent0, lc + 1⟩ from rfl]
      rw [hv2 (lc + 1)]
      simp [Cookie.truthy, htok]
    refine ⟨?_, ?_, ?_, ?_⟩
    · rw [hv2 lc]
    · rw [hv2 lc]
    · rw [hlogin]
    · rw [hlogin]
      simp
  · intro hfail
    have hv2 : ∀ lc' : Nat,
        loginV2 (Nat.succ (Nat.succ f))
            ⟨u, p, Cookie.none, Ev.resp r :: Ev.resp r2 :: rest, sent0, lc'⟩ =
          (Cookie.none,
           ⟨u, p, Cookie.none, Ev.resp r2 :: rest,
            sent0 ++
              [(getHeaders Cookie.none SERVICE_DEVICE_CONFIG "SOAPLogin" false,
                soapRequest SESSION_ID
                  (callBody (SERVICE_URN ++ SERVICE_DEVICE_CONFIG) "SOAPLogin"
                    (paramsString (some [("Username", u), ("Password", p)]))))],
            lc'⟩) := by
      intro lc'
      simp only [loginV2]
      rw [makeRequest_noauth_step f _ _ _ _ _ r (Ev.resp r2 :: rest) rfl hr]
      rcases hfail with hf | hf
      · rw [hf]
        simp
      · cases hvr : isValidResponse r
        · simp
        · simp [hf]
    have hlogin :
        (login (Nat.succ (Nat.succ (Nat.succ f)))
            ⟨u, p, Cookie.none, Ev.resp r :: Ev.resp r2 :: rest, sent0, lc⟩).1 =
          (if isValidResponse r2 = true then Cookie.flag else Cookie.none) ∧
        (login (Nat.succ (Nat.succ (Nat.succ f)))
            ⟨u, p, Cookie.none, Ev.resp r :: Ev.resp r2 :: rest, sent0, lc⟩).2.sent.length =
          sent0.length + 2 := by
      simp only [login]
      rw [show ({ (⟨u, p, Cookie.none, Ev.resp r :: Ev.resp r2 :: rest, sent0, lc⟩ : St) with
            loginCalls := lc + 1 } : St) =
          ⟨u, p, Cookie.none, Ev.resp r :: Ev.resp r2 :: rest, sent0, lc + 1⟩ from rfl]
      rw [hv2 (lc + 1)]
      simp only [Cookie.truthy, Bool.false_eq_true, if_false]
      simp only [loginV1]
      rw [makeRequest_noauth_step f _ _ _ _ _ r2 rest rfl hr2]
      cases hvr2 : isValidResponse r2 <;> simp
    exact ⟨(hv2 lc) ▸ rfl, hlogin.1, hlogin.2⟩

/-- C8 witness: from the unauthenticated state, a successful login call
with token header `TOKEN` stores and returns `CookieAuth("TOKEN")` after
one POST; a failed call makes `login` fall through to v1, which succeeds
with the boolean marker after a second POST. -/
theorem c8_loginv2_amended_witness :
    (loginV2 (Nat.succ (Nat.succ 0))
        ⟨"admin", "pw", Cookie.none,
         [Ev.resp ⟨200, "<ResponseCode>000</ResponseCode>", some "TOKEN"⟩,
          Ev.resp ⟨200, "", Option.none⟩], [], 0⟩).1 = Cookie.token "TOKEN" ∧
    (login (Nat.succ (Nat.succ (Nat.succ 0)))
        ⟨"admin", "pw", Cookie.none,
         [Ev.resp ⟨200, "<ResponseCode>000</ResponseCode>", some "TOKEN"⟩,
          Ev.resp ⟨200, "", Option.none⟩], [], 0⟩).2.sent.length = 1 ∧
    (loginV2 (Nat.succ (Nat.succ 0))
        ⟨"admin", "pw", Cookie.none,
         [Ev.resp ⟨500, "x", Option.none⟩,
          Ev.resp ⟨200, "<ResponseCode>000</ResponseCode>", Option.none⟩], [], 0⟩).1 =
      Cookie.none ∧
    (login (Nat.succ (Nat.succ (Nat.succ 0)))
        ⟨"admin", "pw", Cookie.none,
         [Ev.resp ⟨500, "x", Option.none⟩,
          Ev.resp ⟨200, "<ResponseCode>000</ResponseCode>", Option.none⟩], [], 0⟩).1 =
      Cookie.flag ∧
    (login (Nat.succ (Nat.succ (Nat.succ 0)))
        ⟨"admin", "pw", Cookie.none,
         [Ev.resp ⟨500, "x", Option.none⟩,
          Ev.resp ⟨200, "<ResponseCode>000</ResponseCode>", Option.none⟩], [], 0⟩).2.sent.length =
      2 :=
  ⟨((c8_loginv2_amended 0 "admin" "pw" [] 0
      ⟨200, "<ResponseCode>000</ResponseCode>", some "TOKEN"⟩ ⟨200, "", Option.none⟩ []
      "TOKEN" (by decide) (by decide)).1 (by decide) (by decide) (by decide)).1,
   ((c8_loginv2_amended 0 "admin" "pw" [] 0
      ⟨200, "<ResponseCode>000</ResponseCode>", some "TOKEN"⟩ ⟨200, "", Option.none⟩ []
      "TOKEN" (by decide) (by decide)).1 (by decide) (by decide) (by decide)).2.2.2,
   ((c8_loginv2_amended 0 "admin" "pw" [] 0
      ⟨500, "x", Option.none⟩ ⟨200, "<ResponseCode>000</ResponseCode>", Option.none⟩ []
      "unused" (by decide) (by decide)).2 (Or.inl (by decide))).1,
   ((c8_loginv2_amended 0 "admin" "pw" [] 0
      ⟨500, "x", Option.none⟩ ⟨200, "<ResponseCode>000</ResponseCode>", Option.none⟩ []
      "unused" (by decide) (by decide)).2 (Or.inl (by decide))).2.1,
   ((c8_loginv2_amended 0 "admin" "pw" [] 0
      ⟨500, "x", Option.none⟩ ⟨200, "<ResponseCode>000</ResponseCode>", Option.none⟩ []
      "unused" (by decide) (by decide)).2 (Or.inl (by decide))).2.2⟩

/-- C8 counterexample: from a prior FlagAuth session (cookie `True`), a
successful login call WITHOUT a session-token header makes `login_v2`
return the stale prior cookie, which is truthy, so `login` treats v2 as
usable and never falls through to v1 (one single POST is made) — and the
"usable" result is not a `CookieAuth` token at all.  This violates the
claimed equivalence for that prior state. -/
theorem c8_loginv2_counterexample :
    (loginV2 9
        ⟨"admin", "pw", Cookie.flag,
         [Ev.resp ⟨200, "<ResponseCode>000</ResponseCode>", Option.none⟩], [], 0⟩).1 =
      Cookie.flag ∧
    Cookie.truthy
      (loginV2 9
        ⟨"admin", "pw", Cookie.flag,
         [Ev.resp ⟨200, "<ResponseCode>000</ResponseCode>", Option.none⟩], [], 0⟩).1 = true ∧
    (login 9
        ⟨"admin", "pw", Cookie.flag,
         [Ev.resp ⟨200, "<ResponseCode>000</ResponseCode>", Option.none⟩], [], 0⟩).1 =
      Cookie.flag ∧
    (login 9
        ⟨"admin", "pw", Cookie.flag,
         [Ev.resp ⟨200, "<ResponseCode>000</ResponseCode>", Option.none⟩], [], 0⟩).2.sent.length =
      1 := by
  decide

/-- Symbolic execution of `login()` when the scripted v2 login response
succeeds with a non-empty `Set-Cookie` token: one POST, the token is
stored, v1 is never attempted. -/
theorem login_v2success_step (f : Nat) (st : St) (r : Resp) (rest : List Ev) (tok : String)
    (hscript : st.script = Ev.resp r :: rest)
    (hu : isUnauthorizedResponse r = false) (hv : isValidResponse r = true)
    (hsc : r.setCookie = some tok) (htok : (tok == "") = false) :
    login (Nat.succ (Nat.succ (Nat.succ f))) st =
      (Cookie.token tok,
       { st with cookie := Cookie.token tok, script := rest,
                 sent := st.sent ++
                   [(getHeaders st.cookie SERVICE_DEVICE_CONFIG "SOAPLogin" false,
                     soapRequest SESSION_ID
                       (callBody (SERVICE_URN ++ SERVICE_DEVICE_CONFIG) "SOAPLogin"
                         (paramsString (some [("Username", st.username),
                                              ("Password", st.password)]))))],
                 loginCalls := st.loginCalls + 1 }) := by
  simp only [login, loginV2]
  rw [makeRequest_noauth_step f { st with loginCalls := st.loginCalls + 1 } _ _ _ _ r rest
    hscript hu]
  rw [hv]
  simp [hsc, Cookie.truthy, htok]

theorem loginV1Body_ne_empty (u p : String) : loginV1Body u p ≠ "" := by
  intro h
  have h2 := congrArg String.length h
  simp [loginV1Body, String.length_append] at h2
  exact absurd h2.2 (by decide)

/-- Symbolic execution of `login()` when both scripted login responses
fail (neither a 401 nor a success): two POSTs (v2 then v1), the cookie
field is left unchanged and returned. -/
theorem login_fail_step (f : Nat) (st : St) (rA rB : Resp) (rest : List Ev)
    (hscript : st.script = Ev.resp rA :: Ev.resp rB :: rest)
    (huA : isUnauthorizedResponse rA = false) (hvA : isValidResponse rA = false)
    (huB : isUnauthorizedResponse rB = false) (hvB : isValidResponse rB = false) :
    login (Nat.succ (Nat.succ (Nat.succ f))) st =
      (st.cookie,
       { st with script := rest,
                 sent := (st.sent ++
                   [(getHeaders st.cookie SERVICE_DEVICE_CONFIG "SOAPLogin" false,
                     soapRequest SESSION_ID
                       (callBody (SERVICE_URN ++ SERVICE_DEVICE_CONFIG) "SOAPLogin"
                         (paramsString (some [("Username", st.username),
                                              ("Password", st.password)]))))]) ++
                   [(getHeaders st.cookie "ParentalControl:1" "Authenticate" false,
                     soapRequest SESSION_ID (loginV1Body st.username st.password))],
                 loginCalls := st.loginCalls + 1 }) := by
  simp only [login, loginV2]
  rw [makeRequest_noauth_step f { st with loginCalls := st.loginCalls + 1 } _ _ _ _ rA
    (Ev.resp rB :: rest) hscript huA]
  rw [hvA]
  simp only [Cookie.truthy, Bool.false_eq_true, if_false]
  simp only [loginV1]
  rw [makeRequest_noauth_step f _ _ _ _ _ rB rest rfl huB]
  rw [hvB]
  simp [loginV1Body_ne_empty]

/-- C3: with an authenticated session and a transport scripted to return
an unauthorized response once and then succeed, `_make_request` resets
the cookie, performs exactly one `login()` and exactly one retried POST
(three POSTs in total: original, login, retry — and no further retry
whatever the retried response is), and returns the success
classification of the retried response together with that response; when
the re-login fails (both protocols), it returns failure without
retrying (three POSTs: original, v2 attempt, v1 attempt). -/
theorem c3_single_retry :
    (∀ (f : Nat) (u p svc mth : String) (params : Option (List (String × String)))
       (body : String) (c : Cookie) (r1 rL r2 : Resp) (rest : List Ev)
       (sent0 : List (Headers × String)) (lc : Nat) (tok : String),
       c.truthy = true →
       isUnauthorizedResponse r1 = true →
       isUnauthorizedResponse rL = false →
       isValidResponse rL = true →
       rL.setCookie = some tok →
       (tok == "") = false →
       (makeRequest (Nat.succ (Nat.succ (Nat.succ (Nat.succ f))))
           ⟨u, p, c, Ev.resp r1 :: Ev.resp rL :: Ev.resp r2 :: rest, sent0, lc⟩
           svc mth params body true).1 = isValidResponse r2 ∧
       (makeRequest (Nat.succ (Nat.succ (Nat.succ (Nat.succ f))))
           ⟨u, p, c, Ev.resp r1 :: Ev.resp rL :: Ev.resp r2 :: rest, sent0, lc⟩
           svc mth params body true).2.1 = some r2 ∧
       (makeRequest (Nat.succ (Nat.succ (Nat.succ (Nat.succ f))))
           ⟨u, p, c, Ev.resp r1 :: Ev.resp rL :: Ev.resp r2 :: rest, sent0, lc⟩
           svc mth params body true).2.2.cookie = Cookie.token tok ∧
       (makeRequest (Nat.succ (Nat.succ (Nat.succ (Nat.succ f))))
           ⟨u, p, c, Ev.resp r1 :: Ev.resp rL :: Ev.resp r2 :: rest, sent0, lc⟩
           svc mth params body true).2.2.loginCalls = lc + 1 ∧
       (makeRequest (Nat.succ (Nat.succ (Nat.succ (Nat.succ f))))
           ⟨u, p, c, Ev.resp r1 :: Ev.resp rL :: Ev.resp r2 :: rest, sent0, lc⟩
           svc mth params body true).2.2.sent.length = sent0.length + 3 ∧
       (makeRequest (Nat.succ (Nat.succ (Nat.succ (Nat.succ f))))
           ⟨u, p, c, Ev.resp r1 :: Ev.resp rL :: Ev.resp r2 :: rest, sent0, lc⟩
           svc mth params body true).2.2.script = rest) ∧
    (∀ (f : Nat) (u p svc mth : String) (params : Option (List (String × String)))
       (body : String) (c : Cookie) (r1 rLa rLb : Resp) (rest : List Ev)
       (sent0 : List (Headers × String)) (lc : Nat),
       c.truthy = true →
       isUnauthorizedResponse r1 = true →
       isUnauthorizedResponse rLa = false →
       isValidResponse rLa = false →
       isUnauthorizedResponse rLb = false →
       isValidResponse rLb = false →
       (makeRequest (Nat.succ (Nat.succ (Nat.succ (Nat.succ f))))
           ⟨u, p, c, Ev.resp r1 :: Ev.resp rLa :: Ev.resp rLb :: rest, sent0, lc⟩
           svc mth params body true).1 = false ∧
       (makeRequest (Nat.succ (Nat.succ (Nat.succ (Nat.succ f))))
           ⟨u, p, c, Ev.resp r1 :: Ev.resp rLa :: Ev.resp rLb :: rest, sent0, lc⟩
           svc mth params body true).2.1 = Option.none ∧
       (makeRequest (Nat.succ (Nat.succ (Nat.succ (Nat.succ f))))
           ⟨u, p, c, Ev.resp r1 :: Ev.resp rLa :: Ev.resp rLb :: rest, sent0, lc⟩
           svc mth params body true).2.2.cookie = Cookie.none ∧
       (makeRequest (Nat.succ (Nat.succ (Nat.succ (Nat.succ f))))
           ⟨u, p, c, Ev.resp r1 :: Ev.resp rLa :: Ev.resp rLb :: rest, sent0, lc⟩
           svc mth params body true).2.2.loginCalls = lc + 1 ∧
       (makeRequest (Nat.succ (Nat.succ (Nat.succ (Nat.succ f))))
           ⟨u, p, c, Ev.resp r1 :: Ev.resp rLa :: Ev.resp rLb :: rest, sent0, lc⟩
           svc mth params body true).2.2.sent.length = sent0.length + 3 ∧
       (makeRequest (Nat.succ (Nat.succ (Nat.succ (Nat.succ f))))
           ⟨u, p, c, Ev.resp r1 :: Ev.resp rLa :: Ev.resp rLb :: rest, sent0, lc⟩
           svc mth params body true).2.2.script = rest) := by
  constructor
  · intro f u p svc mth params body c r1 rL r2 rest sent0 lc tok hc h1 hL1 hL2 hsc htok
    have hout :
        makeRequest (Nat.succ (Nat.succ (Nat.succ (Nat.succ f))))
            ⟨u, p, c, Ev.resp r1 :: Ev.resp rL :: Ev.resp r2 :: rest, sent0, lc⟩
            svc mth params body true =
          (isValidResponse r2, some r2,
           ⟨u, p, Cookie.token tok, rest,
            ((sent0 ++
               [(getHeaders c svc mth true,
                 soapRequest SESSION_ID
                   (if body = "" then callBody (SERVICE_URN ++ svc) mth (paramsString params)
                    else body))]) ++
              [(getHeaders Cookie.none SERVICE_DEVICE_CONFIG "SOAPLogin" false,
                soapRequest SESSION_ID
                  (callBody (SERVICE_URN ++ SERVICE_DEVICE_CONFIG) "SOAPLogin"
                    (paramsString (some [("Username", u), ("Password", p)]))))]) ++
              [(getHeaders c svc mth true,
                soapRequest SESSION_ID
                  (if body = "" then callBody (SERVICE_URN ++ svc) mth (paramsString params)
                   else body))],
            lc + 1⟩) := by
      have hcookie : (⟨u, p, c, Ev.resp r1 :: Ev.resp rL :: Ev.resp r2 :: rest, sent0, lc⟩ :
          St).cookie.truthy = true := hc
      simp only [makeRequest, Bool.true_and, hcookie, Bool.not_true, Bool.false_eq_true,
        if_false, doPost]
      simp only [h1]
      rw [login_v2success_step f _ rL (Ev.resp r2 :: rest) tok rfl hL1 hL2 hsc htok]
      simp [Cookie.truthy, htok]
    rw [hout]
    refine ⟨rfl, rfl, rfl, rfl, ?_, rfl⟩
    simp
  · intro f u p svc mth params body c r1 rLa rLb rest sent0 lc hc h1 hua hva hub hvb
    have hout :
        makeRequest (Nat.succ (Nat.succ (Nat.succ (Nat.succ f))))
            ⟨u, p, c, Ev.resp r1 :: Ev.resp rLa :: Ev.resp rLb :: rest, sent0, lc⟩
            svc mth params body true =
          (false, Option.none,
           ⟨u, p, Cookie.none, rest,
            ((sent0 ++
               [(getHeaders c svc mth true,
                 soapRequest SESSION_ID
                   (if body = "" then callBody (SERVICE_URN ++ svc) mth (paramsString params)
                    else body))]) ++
              [(getHeaders Cookie.none SERVICE_DEVICE_CONFIG "SOAPLogin" false,
                soapRequest SESSION_ID
                  (callBody (SERVICE_URN ++ SERVICE_DEVICE_CONFIG) "SOAPLogin"
                    (paramsString (some [("Username", u), ("Password", p)]))))]) ++
              [(getHeaders Cookie.none "ParentalControl:1" "Authenticate" false,
                soapRequest SESSION_ID (loginV1Body u p))],
            lc + 1⟩) := by
      have hcookie : (⟨u, p, c, Ev.resp r1 :: Ev.resp rLa :: Ev.resp rLb :: rest, sent0, lc⟩ :
          St).cookie.truthy = true := hc
      simp only [makeRequest, Bool.true_and, hcookie, Bool.not_true, Bool.false_eq_true,
        if_false, doPost]
      simp only [h1]
      rw [login_fail_step f _ rLa rLb rest rfl hua hva hub hvb]
      simp [Cookie.truthy]
    rw [hout]
    refine ⟨rfl, rfl, rfl, rfl, ?_, rfl⟩
    simp

/-- C3 witness: a transport scripted to return the body-marker 401 once
and then succeed gives exactly one re-login, exactly one retry, and the
(successful) classification of the retried response; with both login
responses failing, the call fails after the original POST and the two
login attempts, with no retry. -/
theorem c3_single_retry_witness :
    (makeRequest (Nat.succ (Nat.succ (Nat.succ (Nat.succ 0))))
        ⟨"admin", "pw", Cookie.token "OLD",
         [Ev.resp ⟨200, "<ResponseCode>401</ResponseCode>", Option.none⟩,
          Ev.resp ⟨200, "<ResponseCode>000</ResponseCode>", some "NEW"⟩,
          Ev.resp ⟨200, "<ResponseCode>000</ResponseCode>", Option.none⟩], [], 0⟩
        SERVICE_DEVICE_INFO "GetAttachDevice" Option.none "" true).1 = true ∧
    (makeRequest (Nat.succ (Nat.succ (Nat.succ (Nat.succ 0))))
        ⟨"admin", "pw", Cookie.token "OLD",
         [Ev.resp ⟨200, "<ResponseCode>401</ResponseCode>", Option.none⟩,
          Ev.resp ⟨200, "<ResponseCode>000</ResponseCode>", some "NEW"⟩,
          Ev.resp ⟨200, "<ResponseCode>000</ResponseCode>", Option.none⟩], [], 0⟩
        SERVICE_DEVICE_INFO "GetAttachDevice" Option.none "" true).2.2.cookie =
      Cookie.token "NEW" ∧
    (makeRequest (Nat.succ (Nat.succ (Nat.succ (Nat.succ 0))))
        ⟨"admin", "pw", Cookie.token "OLD",
         [Ev.resp ⟨200, "<ResponseCode>401</ResponseCode>", Option.none⟩,
          Ev.resp ⟨200, "<ResponseCode>000</ResponseCode>", some "NEW"⟩,
          Ev.resp ⟨200, "<ResponseCode>000</ResponseCode>", Option.none⟩], [], 0⟩
        SERVICE_DEVICE_INFO "GetAttachDevice" Option.none "" true).2.2.loginCalls = 1 ∧
    (makeRequest (Nat.succ (Nat.succ (Nat.succ (Nat.succ 0))))
        ⟨"admin", "pw", Cookie.token "OLD",
         [Ev.resp ⟨200, "<ResponseCode>401</ResponseCode>", Option.none⟩,
          Ev.resp ⟨200, "<ResponseCode>000</ResponseCode>", some "NEW"⟩,
          Ev.resp ⟨200, "<ResponseCode>000</ResponseCode>", Option.none⟩], [], 0⟩
        SERVICE_DEVICE_INFO "GetAttachDevice" Option.none "" true).2.2.sent.length = 3 ∧
    (makeRequest (Nat.succ (Nat.succ (Nat.succ (Nat.succ 0))))
        ⟨"admin", "pw", Cookie.token "OLD",
         [Ev.resp ⟨401, "", Option.none⟩,
          Ev.resp ⟨500, "a", Option.none⟩,
          Ev.resp ⟨500, "b", Option.none⟩], [], 0⟩
        SERVICE_DEVICE_INFO "GetAttachDevice" Option.none "" true).1 = false ∧
    (makeRequest (Nat.succ (Nat.succ (Nat.succ (Nat.succ 0))))
        ⟨"admin", "pw", Cookie.token "OLD",
         [Ev.resp ⟨401, "", Option.none⟩,
          Ev.resp ⟨500, "a", Option.none⟩,
          Ev.resp ⟨500, "b", Option.none⟩], [], 0⟩
        SERVICE_DEVICE_INFO "GetAttachDevice" Option.none "" true).2.2.sent.length = 3 :=
  ⟨(c3_single_retry.1 0 "admin" "pw" SERVICE_DEVICE_INFO "GetAttachDevice" Option.none ""
      (Cookie.token "OLD") ⟨200, "<ResponseCode>401</ResponseCode>", Option.none⟩
      ⟨200, "<ResponseCode>000</ResponseCode>", some "NEW"⟩
      ⟨200, "<ResponseCode>000</ResponseCode>", Option.none⟩ [] [] 0 "NEW"
      (by decide) (by decide) (by decide) (by decide) (by decide) (by decide)).1,
   (c3_single_retry.1 0 "admin" "pw" SERVICE_DEVICE_INFO "GetAttachDevice" Option.none ""
      (Cookie.token "OLD") ⟨200, "<ResponseCode>401</ResponseCode>", Option.none⟩
      ⟨200, "<ResponseCode>000</ResponseCode>", some "NEW"⟩
      ⟨200, "<ResponseCode>000</ResponseCode>", Option.none⟩ [] [] 0 "NEW"
      (by decide) (by decide) (by decide) (by decide) (by decide) (by decide)).2.2.1,
   (c3_single_retry.1 0 "admin" "pw" SERVICE_DEVICE_INFO "GetAttachDevice" Option.none ""
      (Cookie.token "OLD") ⟨200, "<ResponseCode>401</ResponseCode>", Option.none⟩
      ⟨200, "<ResponseCode>000</ResponseCode>", some "NEW"⟩
      ⟨200, "<ResponseCode>000</ResponseCode>", Option.none⟩ [] [] 0 "NEW"
      (by decide) (by decide) (by decide) (by decide) (by decide) (by decide)).2.2.2.1,
   (c3_single_retry.1 0 "admin" "pw" SERVICE_DEVICE_INFO "GetAttachDevice" Option.none ""
      (Cookie.token "OLD") ⟨200, "<ResponseCode>401</ResponseCode>", Option.none⟩
      ⟨200, "<ResponseCode>000</ResponseCode>", some "NEW"⟩
      ⟨200, "<ResponseCode>000</ResponseCode>", Option.none⟩ [] [] 0 "NEW"
      (by decide) (by decide) (by decide) (by decide) (by decide) (by decide)).2.2.2.2.1,
   (c3_single_retry.2 0 "admin" "pw" SERVICE_DEVICE_INFO "GetAttachDevice" Option.none ""
      (Cookie.token "OLD") ⟨401, "", Option.none⟩ ⟨500, "a", Option.none⟩
      ⟨500, "b", Option.none⟩ [] [] 0
      (by decide) (by decide) (by decide) (by decide) (by decide) (by decide)).1,
   (c3_single_retry.2 0 "admin" "pw" SERVICE_DEVICE_INFO "GetAttachDevice" Option.none ""
      (Cookie.token "OLD") ⟨401, "", Option.none⟩ ⟨500, "a", Option.none⟩
      ⟨500, "b", Option.none⟩ [] [] 0
      (by decide) (by decide) (by decide) (by decide) (by decide) (by decide)).2.2.2.2.1⟩

/-- C2 (code evaluation): with an authenticated v2 session whose cookie
is `OLDTOKEN`, a 401 response, a re-login that stores the fresh token
`NEWTOKEN`, and a successful retry, the retried POST carries the
`Cookie` header built BEFORE the original POST — `OLDTOKEN` — not the
refreshed one: the sent-header log reads `[OLDTOKEN, no-cookie(login),
OLDTOKEN]` even though the state now holds `NEWTOKEN`, and headers
rebuilt after the re-login would carry `NEWTOKEN`. -/
theorem c2_stale_retry_headers :
    (makeRequest 9
        ⟨"admin", "pw", Cookie.token "OLDTOKEN",
         [Ev.resp ⟨401, "", Option.none⟩,
          Ev.resp ⟨200, "<ResponseCode>000</ResponseCode>", some "NEWTOKEN"⟩,
          Ev.resp ⟨200, "<ResponseCode>000</ResponseCode>", Option.none⟩], [], 0⟩
        SERVICE_DEVICE_INFO "GetAttachDevice" Option.none "" true).2.2.cookie =
      Cookie.token "NEWTOKEN" ∧
    ((makeRequest 9
        ⟨"admin", "pw", Cookie.token "OLDTOKEN",
         [Ev.resp ⟨401, "", Option.none⟩,
          Ev.resp ⟨200, "<ResponseCode>000</ResponseCode>", some "NEWTOKEN"⟩,
          Ev.resp ⟨200, "<ResponseCode>000</ResponseCode>", Option.none⟩], [], 0⟩
        SERVICE_DEVICE_INFO "GetAttachDevice" Option.none "" true).2.2.sent.map
          (fun q => q.1.cookie)) =
      [some "OLDTOKEN", Option.none, some "OLDTOKEN"] ∧
    (getHeaders (Cookie.token "NEWTOKEN") SERVICE_DEVICE_INFO "GetAttachDevice" true).cookie =
      some "NEWTOKEN" := by
  decide

end Pynetgear
